import Mathlib

/-!
# Verification of the pattern-driven tokenizer (`nltk/tokenize/regexp.py`)

Shallow embedding of `RegexpTokenizer` and its preset/convenience entry
points.  Strings are modelled as `List Char`.  The external regular
expression engine (Python's `re` module, an out-of-scope collaborator per
the specification) is modelled on the fragment of its dialect that the
tokenizer exercises: literals, the class escapes `\w`, `\s`, `\d` (and
their negations), bracket character classes with optional negation and
ranges, `.`, alternation `|`, concatenation, the quantifiers `*`, `+`,
`?`, non-capturing groups `(?:...)` and capturing groups `(...)`.
Matching follows Python 2 semantics: leftmost position, backtracking
priority order (alternatives left to right, quantifiers greedy),
`re.findall` returns all non-overlapping matches (empty matches advance
by one character), and `re.split` never splits on an empty match.
-/

/-- One membership test inside a character class. -/
inductive CAtom where
  | aword
  | aspace
  | adigit
  | alit (c : Char)
  | arange (lo hi : Char)
deriving DecidableEq, Repr

/-- Abstract syntax of the supported regular-expression fragment.
`capg` is a capturing group `(...)`, `grp` a non-capturing group
`(?:...)`; both are transparent for matching, but only `capg` counts
toward the pattern's capturing-group number. -/
inductive RE where
  | eps
  | ch (c : Char)
  | cls (neg : Bool) (atoms : List CAtom)
  | anyc
  | alt (r s : RE)
  | cat (r s : RE)
  | star (r : RE)
  | grp (r : RE)
  | capg (r : RE)
deriving DecidableEq, Repr

/-- `\w` with `re.UNICODE`: alphanumeric or underscore. -/
def isWordChar (c : Char) : Bool := c.isAlphanum || c = '_'

/-- `\s`: the whitespace characters of Python's `re` module. -/
def isSpaceChar (c : Char) : Bool :=
  c = ' ' || c = '\t' || c = '\n' || c = '\r' || c = Char.ofNat 11 || c = Char.ofNat 12

def matchesAtom : CAtom → Char → Bool
  | .aword, c => isWordChar c
  | .aspace, c => isSpaceChar c
  | .adigit, c => c.isDigit
  | .alit a, c => c = a
  | .arange lo hi, c => lo ≤ c && c ≤ hi

def matchesCls (neg : Bool) (atoms : List CAtom) (c : Char) : Bool :=
  let m := atoms.any (fun a => matchesAtom a c)
  if neg then !m else m

/-- Priority-ordered lengths that `star r` can match at the head of the
input, given the priority-ordered lengths `pre` of one iteration of `r`.
Greedy: more iterations come first; empty iterations are skipped, as the
backtracking engine refuses zero-width repetitions.  The bound `k` caps
the number of iterations; since every iteration consumes at least one
character, `k = length of the input` is exact. -/
def starPre (pre : List Char → List Nat) : Nat → List Char → List Nat
  | 0, _ => [0]
  | k + 1, l =>
      ((pre l).filter (fun n => 0 < n)).flatMap
        (fun n => (starPre pre k (l.drop n)).map (fun m => n + m)) ++ [0]

/-- Priority-ordered list of the lengths of prefixes of `l` that `r` can
match, first element = the length the backtracking engine commits to. -/
def prefixes : RE → List Char → List Nat
  | .eps, _ => [0]
  | .ch _, [] => []
  | .ch a, c :: _ => if c = a then [1] else []
  | .cls _ _, [] => []
  | .cls neg atoms, c :: _ => if matchesCls neg atoms c then [1] else []
  | .anyc, [] => []
  | .anyc, _ :: _ => [1]
  | .alt r s, l => prefixes r l ++ prefixes s l
  | .cat r s, l =>
      (prefixes r l).flatMap (fun n => (prefixes s (l.drop n)).map (fun m => n + m))
  | .star r, l => starPre (prefixes r) l.length l
  | .grp r, l => prefixes r l
  | .capg r, l => prefixes r l

/-- Length of the match the engine returns at the current position
(`None` = no match here), Python's leftmost-first choice. -/
def firstMatchLen (r : RE) (l : List Char) : Option Nat :=
  (prefixes r l).head?

/-- Number of capturing groups in a compiled pattern. -/
def numCaps : RE → Nat
  | .eps => 0
  | .ch _ => 0
  | .cls _ _ => 0
  | .anyc => 0
  | .alt r s => numCaps r + numCaps s
  | .cat r s => numCaps r + numCaps s
  | .star r => numCaps r
  | .grp r => numCaps r
  | .capg r => numCaps r + 1

/-- `re.findall` (Python 2): scan left to right, collect every
non-overlapping match; an empty match is collected and the scan advances
one character.  `fuel` bounds the number of scan steps; `refindall`
supplies `l.length`, which is exact since every step either consumes the
matched characters or advances by one. -/
def refindallAux (r : RE) : Nat → List Char → List (List Char)
  | _, [] =>
      match firstMatchLen r [] with
      | some _ => [[]]
      | none => []
  | 0, _ :: _ => []
  | fuel + 1, c :: rest =>
      match firstMatchLen r (c :: rest) with
      | none => refindallAux r fuel rest
      | some 0 => [] :: refindallAux r fuel rest
      | some (n + 1) => (c :: rest.take n) :: refindallAux r fuel (rest.drop n)

def refindall (r : RE) (l : List Char) : List (List Char) :=
  refindallAux r l.length l

/-- `re.split` (Python 2): cut the text at every non-overlapping match;
empty matches never split.  `acc` holds the characters of the piece
being built, in reverse.  `fuel` as in `refindallAux`. -/
def resplitAux (r : RE) : Nat → List Char → List Char → List (List Char)
  | _, acc, [] => [acc.reverse]
  | 0, acc, l => [acc.reverse ++ l]
  | fuel + 1, acc, c :: rest =>
      match firstMatchLen r (c :: rest) with
      | some (n + 1) => acc.reverse :: resplitAux r fuel [] (rest.drop n)
      | _ => resplitAux r fuel (c :: acc) rest

def resplit (r : RE) (l : List Char) : List (List Char) :=
  resplitAux r l.length [] l

/-- The delimiter substrings that `resplit` cuts at, in order. -/
def redelimsAux (r : RE) : Nat → List Char → List (List Char)
  | _, [] => []
  | 0, _ :: _ => []
  | fuel + 1, c :: rest =>
      match firstMatchLen r (c :: rest) with
      | some (n + 1) => (c :: rest.take n) :: redelimsAux r fuel (rest.drop n)
      | _ => redelimsAux r fuel rest

def redelims (r : RE) (l : List Char) : List (List Char) :=
  redelimsAux r l.length l

/-- Interleave a token sequence with the delimiters that separated the
tokens and concatenate everything, i.e. `t0 ++ d0 ++ t1 ++ d1 ++ ...`. -/
def interleaveJoin : List (List Char) → List (List Char) → List Char
  | [], _ => []
  | t :: ts, [] => t ++ interleaveJoin ts []
  | t :: ts, d :: ds => t ++ (d ++ interleaveJoin ts ds)

/-- Class-body escape `\x`: class escapes keep their meaning, control
escapes and punctuation become literals, digits (octal escapes /
backreferences) are outside the modelled fragment. -/
def classEscAtom : Char → Except String CAtom
  | 'w' => .ok CAtom.aword
  | 's' => .ok CAtom.aspace
  | 'd' => .ok CAtom.adigit
  | 'n' => .ok (CAtom.alit '\n')
  | 't' => .ok (CAtom.alit '\t')
  | 'r' => .ok (CAtom.alit '\r')
  | c => if c.isDigit then .error "octal escapes are outside the modelled fragment"
         else .ok (CAtom.alit c)

/-- Parse the body of a bracket class, after `[` (and after a leading
`^`, handled by the caller), up to the closing `]`. -/
def parseClassAtoms : List Char → Except String (List CAtom × List Char)
  | [] => .error "unexpected end of regular expression"
  | ']' :: rest => .ok ([], rest)
  | '\\' :: [] => .error "bogus escape (end of line)"
  | '\\' :: c :: rest =>
      match classEscAtom c with
      | .error e => .error e
      | .ok a =>
          match parseClassAtoms rest with
          | .error e => .error e
          | .ok (as, rest2) => .ok (a :: as, rest2)
  | c1 :: '-' :: ']' :: rest => .ok ([CAtom.alit c1, CAtom.alit '-'], rest)
  | _ :: '-' :: '\\' :: _ => .error "escaped range bound is outside the modelled fragment"
  | c1 :: '-' :: c2 :: rest =>
      if c1 ≤ c2 then
        match parseClassAtoms rest with
        | .error e => .error e
        | .ok (as, rest2) => .ok (CAtom.arange c1 c2 :: as, rest2)
      else .error "bad character range"
  | c :: rest =>
      match parseClassAtoms rest with
      | .error e => .error e
      | .ok (as, rest2) => .ok (CAtom.alit c :: as, rest2)

/-- Parse a bracket class, after the opening `[`. -/
def parseCls (l : List Char) : Except String (RE × List Char) :=
  match l with
  | '^' :: rest =>
      match parseClassAtoms rest with
      | .error e => .error e
      | .ok (as, rest2) => .ok (RE.cls true as, rest2)
  | _ =>
      match parseClassAtoms l with
      | .error e => .error e
      | .ok (as, rest2) => .ok (RE.cls false as, rest2)

/-- Top-level escape `\x`. -/
def parseEscape : List Char → Except String (RE × List Char)
  | [] => .error "bogus escape (end of line)"
  | 'w' :: rest => .ok (RE.cls false [CAtom.aword], rest)
  | 'W' :: rest => .ok (RE.cls true [CAtom.aword], rest)
  | 's' :: rest => .ok (RE.cls false [CAtom.aspace], rest)
  | 'S' :: rest => .ok (RE.cls true [CAtom.aspace], rest)
  | 'd' :: rest => .ok (RE.cls false [CAtom.adigit], rest)
  | 'D' :: rest => .ok (RE.cls true [CAtom.adigit], rest)
  | 'n' :: rest => .ok (RE.ch '\n', rest)
  | 't' :: rest => .ok (RE.ch '\t', rest)
  | 'r' :: rest => .ok (RE.ch '\r', rest)
  | c :: rest =>
      if c.isDigit then .error "backreferences are outside the modelled fragment"
      else .ok (RE.ch c, rest)

mutual

/-- Parse an alternation `seq ('|' seq)*`.  `fuel` strictly decreases on
every nested call; `reCompile` supplies more than enough. -/
def parseAlt : Nat → List Char → Except String (RE × List Char)
  | 0, _ => .error "pattern too deeply nested"
  | fuel + 1, l =>
      match parseSeq fuel l with
      | .error e => .error e
      | .ok (r, rest) =>
          match rest with
          | '|' :: rest2 =>
              match parseAlt fuel rest2 with
              | .error e => .error e
              | .ok (s, rest3) => .ok (RE.alt r s, rest3)
          | _ => .ok (r, rest)

/-- Parse a concatenation of quantified atoms, stopping at `|`, `)` or
the end of the pattern. -/
def parseSeq : Nat → List Char → Except String (RE × List Char)
  | 0, _ => .error "pattern too deeply nested"
  | fuel + 1, l =>
      match l with
      | [] => .ok (RE.eps, [])
      | ')' :: _ => .ok (RE.eps, l)
      | '|' :: _ => .ok (RE.eps, l)
      | _ =>
          match parseAtomQ fuel l with
          | .error e => .error e
          | .ok (r, rest) =>
              match parseSeq fuel rest with
              | .error e => .error e
              | .ok (s, rest2) => .ok (RE.cat r s, rest2)

/-- Parse one atom followed by an optional quantifier `*`, `+` or `?`. -/
def parseAtomQ : Nat → List Char → Except String (RE × List Char)
  | 0, _ => .error "pattern too deeply nested"
  | fuel + 1, l =>
      match parseAtom fuel l with
      | .error e => .error e
      | .ok (r, rest) =>
          match rest with
          | '*' :: rest2 => .ok (RE.star r, rest2)
          | '+' :: rest2 => .ok (RE.cat r (RE.star r), rest2)
          | '?' :: rest2 => .ok (RE.alt r RE.eps, rest2)
          | _ => .ok (r, rest)

/-- Parse a single atom: a group, a bracket class, an escape, `.` or a
literal character. -/
def parseAtom : Nat → List Char → Except String (RE × List Char)
  | 0, _ => .error "pattern too deeply nested"
  | fuel + 1, l =>
      match l with
      | [] => .error "unexpected end of regular expression"
      | '(' :: '?' :: ':' :: rest =>
          match parseAlt fuel rest with
          | .error e => .error e
          | .ok (r, rest2) =>
              match rest2 with
              | ')' :: rest3 => .ok (RE.grp r, rest3)
              | _ => .error "missing ), unbalanced parenthesis"
      | '(' :: '?' :: _ => .error "extension groups are outside the modelled fragment"
      | '(' :: rest =>
          match parseAlt fuel rest with
          | .error e => .error e
          | .ok (r, rest2) =>
              match rest2 with
              | ')' :: rest3 => .ok (RE.capg r, rest3)
              | _ => .error "missing ), unbalanced parenthesis"
      | ')' :: _ => .error "unbalanced parenthesis"
      | '[' :: rest => parseCls rest
      | '\\' :: rest => parseEscape rest
      | '*' :: _ => .error "nothing to repeat"
      | '+' :: _ => .error "nothing to repeat"
      | '?' :: _ => .error "nothing to repeat"
      | '^' :: _ => .error "anchors are outside the modelled fragment"
      | '$' :: _ => .error "anchors are outside the modelled fragment"
      | '{' :: _ => .error "counted repetition is outside the modelled fragment"
      | c :: rest => .ok (RE.ch c, rest)

end

/-- `re.compile` over the modelled fragment: parse the whole pattern,
reject leftovers (a stray `)`). -/
def reCompile (p : List Char) : Except String RE :=
  match parseAlt (2 * p.length + 4) p with
  | .error e => .error e
  | .ok (r, []) => .ok r
  | .ok (_, _ :: _) => .error "unbalanced parenthesis"

/-! ## Pattern normalization (`nltk.internals.convert_regexp_to_nongrouping`) -/

/-- Modelled from the spec: `convert_regexp_to_nongrouping` lives in
`nltk/internals.py`, which is not part of the sources at hand.  Per the
specification it is a pure string-to-string transform built on
conservative parenthesis scanning: every *unescaped, group-opening*
parenthesis not already followed by an extension marker (`?`) is
rewritten to the non-capturing opener `(?:`; escaped parentheses and
`(?...` extension groups are left untouched; nothing else changes. -/
def convert_regexp_to_nongrouping : List Char → List Char
  | [] => []
  | '\\' :: [] => ['\\']
  | '\\' :: c :: rest => '\\' :: c :: convert_regexp_to_nongrouping rest
  | '(' :: '?' :: rest => '(' :: '?' :: convert_regexp_to_nongrouping rest
  | '(' :: rest => '(' :: '?' :: ':' :: convert_regexp_to_nongrouping rest
  | c :: rest => c :: convert_regexp_to_nongrouping rest

/-! ## The tokenizer (`nltk/tokenize/regexp.py`) -/

/-- The regexp flags of the `re` module used in the default
`flags` argument. -/
def re_UNICODE : Nat := 32

def re_MULTILINE : Nat := 8

def re_DOTALL : Nat := 16

/-- Default of the `flags` parameter:
`re.UNICODE | re.MULTILINE | re.DOTALL`. -/
def defaultFlags : Nat := re_UNICODE ||| re_MULTILINE ||| re_DOTALL

/-- The error raised by `RegexpTokenizer.__init__` when the normalized
pattern fails to compile — in the source a
`ValueError('Error in regular expression %r: %s' % (pattern, e))`,
which carries the original pattern text and the underlying compiler's
message. -/
structure PatternError where
  pattern : List Char
  msg : String
deriving DecidableEq, Repr

/-- State of a successfully constructed `RegexpTokenizer`: the original
pattern, the `gaps` and `discard_empty` flags, the compile flags, and
the compiled regular expression (compiled from the normalized pattern). -/
structure RegexpTokenizer where
  _pattern : List Char
  _gaps : Bool
  _discard_empty : Bool
  _flags : Nat
  _regexp : RE
deriving Repr

/-- `RegexpTokenizer.__init__`: normalize the pattern with
`convert_regexp_to_nongrouping`, compile the normalized pattern, and
either return the tokenizer or fail with a `PatternError` carrying the
original pattern and the compiler's message.  (The source also accepts a
pre-compiled regexp object and extracts its `pattern` attribute first;
the embedding takes the pattern text directly.) -/
def RegexpTokenizer.init (pattern : List Char) (gaps discard_empty : Bool)
    (flags : Nat) : Except PatternError RegexpTokenizer :=
  match reCompile (convert_regexp_to_nongrouping pattern) with
  | .ok r => .ok ⟨pattern, gaps, discard_empty, flags, r⟩
  | .error e => .error ⟨pattern, e⟩

/-- `RegexpTokenizer.tokenize`: `re.split` plus the truthiness filter
`[tok for tok in ... if tok]` in gap mode, `re.findall` in token mode. -/
def RegexpTokenizer.tokenize (self : RegexpTokenizer) (text : List Char) :
    List (List Char) :=
  if self._gaps then
    if self._discard_empty then
      (resplit self._regexp text).filter (fun tok => !tok.isEmpty)
    else
      resplit self._regexp text
  else
    refindall self._regexp text

/-- `WhitespaceTokenizer()`: `RegexpTokenizer(r'\s+', gaps=True)`. -/
def WhitespaceTokenizer : Except PatternError RegexpTokenizer :=
  RegexpTokenizer.init "\\s+".data true true defaultFlags

/-- `BlanklineTokenizer()`: `RegexpTokenizer(r'\s*\n\s*\n\s*', gaps=True)`. -/
def BlanklineTokenizer : Except PatternError RegexpTokenizer :=
  RegexpTokenizer.init "\\s*\n\\s*\n\\s*".data true true defaultFlags

/-- `WordPunctTokenizer()`: `RegexpTokenizer(r'\w+|[^\w\s]+')`. -/
def WordPunctTokenizer : Except PatternError RegexpTokenizer :=
  RegexpTokenizer.init "\\w+|[^\\w\\s]+".data false true defaultFlags

/-- `WordTokenizer()` (deprecated): `RegexpTokenizer(r'\w+')`. -/
def WordTokenizer : Except PatternError RegexpTokenizer :=
  RegexpTokenizer.init "\\w+".data false true defaultFlags

/-- `regexp_tokenize(text, pattern, gaps, discard_empty, flags)`:
construct a transient tokenizer and immediately tokenize `text`. -/
def regexp_tokenize (text pattern : List Char) (gaps discard_empty : Bool)
    (flags : Nat) : Except PatternError (List (List Char)) :=
  (RegexpTokenizer.init pattern gaps discard_empty flags).map
    (fun tokenizer => tokenizer.tokenize text)

/-! ## Theorems -/

/-- The word-and-punctuation tokenizer on `"She said 'hello'."`:
`'` and `.` at the end are adjacent non-word-non-space characters, so
the greedy `[^\w\s]+` branch matches them as the single token `"'."`. -/
theorem wordpunct_hello_value :
    WordPunctTokenizer.map (fun t => t.tokenize "She said 'hello'.".data)
      = Except.ok ["She".data, "said".data, "'".data, "hello".data, "'.".data] := rfl

/-- C1, counterexample: the word-and-punctuation preset tokenizer does
*not* return `["She", "said", "'", "hello", "'", "."]` on
`"She said 'hello'."` — the trailing `'` and `.` come back as the single
token `"'."`, exactly as the class's own docstring shows. -/
theorem wordpunct_spec_example_refuted :
    WordPunctTokenizer.map (fun t => t.tokenize "She said 'hello'.".data)
      ≠ Except.ok ["She".data, "said".data, "'".data, "hello".data, "'".data, ".".data] := by
  intro h
  rw [wordpunct_hello_value] at h
  exact absurd (Except.ok.inj h) (by decide)

/-- C1, amended: the word-and-punctuation preset tokenizer (pattern
`\w+|[^\w\s]+`, gap=false), applied to `"She said 'hello'."`, returns
exactly `["She", "said", "'", "hello", "'."]` — the adjacent apostrophe
and period form one token, since both are non-word-non-space characters
and the match is greedy. -/
theorem wordpunct_hello_actual_tokens :
    WordPunctTokenizer.map (fun t => t.tokenize "She said 'hello'.".data)
      = Except.ok ["She".data, "said".data, "'".data, "hello".data, "'.".data] :=
  wordpunct_hello_value

/-- C2: constructing a tokenizer from the pattern `"(unbalanced"` with
gap=true fails: the normalized pattern `"(?:unbalanced"` does not
compile, and the error carries the original (unnormalized) pattern text
together with the underlying compiler's message; no tokenizer value is
returned (the result is `Except.error`, not `Except.ok`). -/
theorem construct_unbalanced_raises_pattern_error :
    RegexpTokenizer.init "(unbalanced".data true true defaultFlags
        = Except.error ⟨"(unbalanced".data, "missing ), unbalanced parenthesis"⟩
      ∧ reCompile (convert_regexp_to_nongrouping "(unbalanced".data)
        = Except.error "missing ), unbalanced parenthesis" :=
  ⟨rfl, rfl⟩

/-- C3: `regexp_tokenize("abc", pattern="(a)(b)(c)", gaps=False)` returns
exactly `["abc"]` — the whole match, not the captured groups — and
indeed construction rewrites the pattern to the non-capturing
`"(?:a)(?:b)(?:c)"` before compiling. -/
theorem regexp_tokenize_grouped_whole_match :
    regexp_tokenize "abc".data "(a)(b)(c)".data false true defaultFlags
        = Except.ok ["abc".data]
      ∧ convert_regexp_to_nongrouping "(a)(b)(c)".data = "(?:a)(?:b)(?:c)".data :=
  ⟨rfl, rfl⟩

/-- C4: for every tokenizer state with gaps=true and discard_empty=true
(whatever its pattern, flags and compiled regexp) and every input text,
the token sequence returned by `tokenize` contains no empty string. -/
theorem gap_discard_tokenize_no_empty (pattern : List Char) (flags : Nat)
    (r : RE) (text : List Char) :
    [] ∉ RegexpTokenizer.tokenize ⟨pattern, true, true, flags, r⟩ text := by
  simp [RegexpTokenizer.tokenize, List.mem_filter]

/-- Splitting plus the matched delimiters reassembles the input:
core induction for the reconstruction property, generalized over the
fuel and the accumulated current piece. -/
theorem resplit_reconstruct (r : RE) :
    ∀ (fuel : Nat) (acc l : List Char),
      interleaveJoin (resplitAux r fuel acc l) (redelimsAux r fuel l)
        = acc.reverse ++ l := by
  intro fuel
  induction fuel with
  | zero =>
    intro acc l
    cases l with
    | nil => simp [resplitAux, redelimsAux, interleaveJoin]
    | cons c rest => simp [resplitAux, redelimsAux, interleaveJoin]
  | succ fuel ih =>
    intro acc l
    cases l with
    | nil => simp [resplitAux, redelimsAux, interleaveJoin]
    | cons c rest =>
      cases h : firstMatchLen r (c :: rest) with
      | none =>
        simp only [resplitAux, redelimsAux, h]
        rw [ih]
        simp
      | some n =>
        cases n with
        | zero =>
          simp only [resplitAux, redelimsAux, h]
          rw [ih]
          simp
        | succ m =>
          simp only [resplitAux, redelimsAux, h, interleaveJoin]
          rw [ih]
          simp [List.take_append_drop]

/-- C5: for every tokenizer state with gaps=true and discard_empty=false
and every input text, interleaving the returned tokens with the
delimiter substrings matched by the pattern, in order, and concatenating
reconstructs the input text exactly. -/
theorem gap_keep_tokenize_reconstructs (pattern : List Char) (flags : Nat)
    (r : RE) (text : List Char) :
    interleaveJoin (RegexpTokenizer.tokenize ⟨pattern, true, false, flags, r⟩ text)
        (redelims r text)
      = text := by
  have h := resplit_reconstruct r text.length [] text
  simpa [RegexpTokenizer.tokenize, resplit, redelims] using h

/-- C6: for every pattern, flag setting and input text, a tokenizer
constructed with gaps=false and discard_empty=true tokenizes exactly as
one constructed with gaps=false and discard_empty=false: in token mode
`tokenize` is `re.findall` and never consults `discard_empty` (and
construction does not consult it either, so both constructions succeed
or fail together). -/
theorem token_mode_discard_empty_irrelevant (pattern : List Char) (flags : Nat)
    (text : List Char) :
    (RegexpTokenizer.init pattern false true flags).map (fun t => t.tokenize text)
      = (RegexpTokenizer.init pattern false false flags).map (fun t => t.tokenize text) := by
  unfold RegexpTokenizer.init
  cases reCompile (convert_regexp_to_nongrouping pattern) with
  | ok r => simp [Except.map, RegexpTokenizer.tokenize]
  | error e => simp [Except.map]

/-- C7: for every successfully constructed tokenizer, `tokenize` is a
total function of the input text — it returns a well-defined token
sequence for every string (empty and control-character strings
included) and can raise no error, since in the embedding every
operation it performs (`re.split`, the emptiness filter, `re.findall`)
is total. -/
theorem tokenize_total_no_error (pattern : List Char) (gaps discard_empty : Bool)
    (flags : Nat) (tok : RegexpTokenizer)
    (_h : RegexpTokenizer.init pattern gaps discard_empty flags = Except.ok tok)
    (text : List Char) :
    ∃ result : List (List Char), tok.tokenize text = result :=
  ⟨_, rfl⟩

/-- The tokenizer state that `RegexpTokenizer.init` builds for the
whitespace pattern `\s+` with gaps=true. -/
def wsTokenizerState : RegexpTokenizer :=
  ⟨"\\s+".data, true, true, defaultFlags,
    RE.cat (RE.cat (RE.cls false [CAtom.aspace]) (RE.star (RE.cls false [CAtom.aspace]))) RE.eps⟩

/-- Witness for C7: the whitespace tokenizer is successfully
constructed, and tokenizing a string of control characters returns a
value. -/
theorem tokenize_total_no_error_witness :
    ∃ result : List (List Char),
      wsTokenizerState.tokenize "\u0000\u0001 x".data = result :=
  tokenize_total_no_error "\\s+".data true true defaultFlags wsTokenizerState rfl
    "\u0000\u0001 x".data

/-- C8: `regexp_tokenize("", pattern=r"\s+", gaps=True,
discard_empty=True)` returns the empty sequence. -/
theorem regexp_tokenize_empty_text_empty_seq :
    regexp_tokenize "".data "\\s+".data true true defaultFlags = Except.ok [] := rfl

/-- C9: the whitespace preset tokenizer (`\s+`, gaps=true,
discard_empty=true) applied to `"a b\tc\nd"` returns exactly
`["a", "b", "c", "d"]`. -/
theorem whitespace_tokenizer_example :
    WhitespaceTokenizer.map (fun t => t.tokenize "a b\tc\nd".data)
      = Except.ok ["a".data, "b".data, "c".data, "d".data] := rfl

/-- C10: for every tokenizer state with gaps=true and
discard_empty=false, tokenizing the empty string returns the
one-element sequence containing the empty string, because `re.split`
of the empty string is `[""]`. -/
theorem gap_keep_empty_text_single_empty_token (pattern : List Char) (flags : Nat)
    (r : RE) :
    RegexpTokenizer.tokenize ⟨pattern, true, false, flags, r⟩ [] = [[]] := rfl
